import Mathlib

/-!
Verification development for the `roux` Reddit API client library.

The Rust source is shallowly embedded: pure request/URL construction becomes
Lean functions; network I/O is factored out by passing the HTTP response in
as an explicit argument; Rust `panic!`/`unwrap` failure is an explicit
`PanicOr.panics` outcome; fallible operations return `Except`.
-/

namespace Roux

/-- JSON values, as produced by `serde_json`.  Objects keep their fields as an
association list in document order. -/
inductive Json where
  | null : Json
  | bool (b : Bool) : Json
  | num (n : Int) : Json
  | str (s : String) : Json
  | arr (elems : List Json) : Json
  | obj (fields : List (String × Json)) : Json

/-- Field lookup in a JSON object's association list (first match, as serde
uses the first occurrence of a field). -/
def lookupField (fields : List (String × Json)) (key : String) : Option Json :=
  match fields.find? (fun kv => kv.fst == key) with
  | some kv => some kv.snd
  | none => none

/-- Outcome of running a piece of Rust code that may `panic!` (e.g. through
`Option::unwrap` on `None`): either a panic, or a normal value. -/
inductive PanicOr (α : Type) where
  | panics : PanicOr α
  | ok (val : α) : PanicOr α
deriving DecidableEq

/-- An HTTP response as seen by the client after `send()`: a status code and
a JSON body. -/
structure HttpResponse where
  status : Nat
  body : Json

/-- The crate's error type `util::RouxError`.  `auth` and `status` appear in
`src/lib.rs`; the remaining variants are modelled from the spec's error
taxonomy (the `util` module defining them is not in the sources):
`missingCredentials`, `transport`, and `parse` (covering deserialization
failures, including the spec's `ParseError::UnexpectedShape`). -/
inductive RouxError where
  | missingCredentials : RouxError
  | transport : RouxError
  | status (response : HttpResponse) : RouxError
  | auth (msg : String) : RouxError
  | parse : RouxError

/-- Bytes of an ASCII string (for ASCII text, code points coincide with the
UTF-8 bytes that `reqwest` validates header values over). -/
def strBytes (s : String) : List Nat :=
  s.data.map Char.toNat

/-- Validity of one byte of an HTTP header value, per the `http` crate's
`HeaderValue::from_str` check used by `reqwest`: horizontal tab, or any byte
that is at least 32 and is not DEL (127). -/
def validHeaderByte (b : Nat) : Bool :=
  b == 9 || (32 ≤ b && b != 127)

/-- Validity of a whole header value: every byte is valid. -/
def validHeaderValue (bytes : List Nat) : Bool :=
  bytes.all validHeaderByte

/-- The client configuration `config::Config`.  The `config` module is not in
the sources; its fields are modelled from the spec's Credentials/Session data
model and from every use in `src/lib.rs`: user-agent (kept as its bytes),
client id/secret, optional username/password, optional bearer token. -/
structure Config where
  user_agent : List Nat
  client_id : String
  client_secret : String
  username : Option String
  password : Option String
  access_token : Option String
deriving DecidableEq

/-- `config::Config::new(user_agent, client_id, client_secret)`: username,
password and access token start out unset. -/
def Config.new (user_agent : List Nat) (client_id client_secret : String) : Config :=
  { user_agent := user_agent
    client_id := client_id
    client_secret := client_secret
    username := none
    password := none
    access_token := none }

/-- HTTP method of an outgoing request. -/
inductive Method where
  | get : Method
  | post : Method
deriving DecidableEq

/-- The Authorization header state of a `reqwest::RequestBuilder`:
`bearer_auth` and `basic_auth` each overwrite it. -/
inductive AuthHeader where
  | none : AuthHeader
  | bearer (token : String) : AuthHeader
  | basic (user : String) (pass : String) : AuthHeader
deriving DecidableEq

/-- A `reqwest::RequestBuilder` as configured by this crate: method, target
URL, user-agent header bytes, Authorization header, and form body. -/
structure RequestBuilder where
  method : Method
  url : String
  userAgent : List Nat
  auth : AuthHeader
  form : List (String × String)
deriving DecidableEq

/-- The Authorization header attached by `RedditClient::get`/`post`: a bearer
credential exactly when the session token is present. -/
def authFor (token : Option String) : AuthHeader :=
  match token with
  | some t => AuthHeader.bearer t
  | Option.none => AuthHeader.none

/-- `RedditClient::get` (src/lib.rs:167-176): builds a GET request, attaching
the user-agent header unconditionally (`HeaderValue::from_str(..).unwrap()`
panics when the user-agent has an invalid header byte) and a bearer token
exactly when `cfg.access_token` is `Some`. -/
def RedditClient.get (cfg : Config) (url : String) : PanicOr RequestBuilder :=
  if validHeaderValue cfg.user_agent then
    PanicOr.ok
      { method := Method.get
        url := url
        userAgent := cfg.user_agent
        auth := authFor cfg.access_token
        form := [] }
  else
    PanicOr.panics

/-- `RedditClient::post` (src/lib.rs:178-187): builds a POST request with the
same header behaviour as `RedditClient::get`. -/
def RedditClient.post (cfg : Config) (url : String) : PanicOr RequestBuilder :=
  if validHeaderValue cfg.user_agent then
    PanicOr.ok
      { method := Method.post
        url := url
        userAgent := cfg.user_agent
        auth := authFor cfg.access_token
        form := [] }
  else
    PanicOr.panics

/-- `util::url::build_url` (src/util/url.rs:4-6):
`format!("https://www.reddit.com/{}/.json", dest)`. -/
def build_url (dest : String) : String :=
  "https://www.reddit.com/" ++ dest ++ "/.json"

/-- The untagged `AuthResponse` union (src/lib.rs:89-94). -/
inductive AuthResponse where
  | authData (access_token : String) : AuthResponse
  | errorData (error : String) : AuthResponse
deriving DecidableEq

/-- serde attempt at the `AuthData` variant: an object with a string
`access_token` field (unknown fields ignored). -/
def parseAuthData : Json → Option AuthResponse
  | Json.obj fields =>
    match lookupField fields "access_token" with
    | some (Json.str t) => some (AuthResponse.authData t)
    | _ => none
  | _ => none

/-- serde attempt at the `ErrorData` variant: an object with a string
`error` field (unknown fields ignored). -/
def parseErrorData : Json → Option AuthResponse
  | Json.obj fields =>
    match lookupField fields "error" with
    | some (Json.str e) => some (AuthResponse.errorData e)
    | _ => none
  | _ => none

/-- serde's `#[serde(untagged)]` deserialization of `AuthResponse`: the
variants are tried in declaration order, `AuthData` first, then `ErrorData`. -/
def parseAuthResponse (j : Json) : Option AuthResponse :=
  match parseAuthData j with
  | some r => some r
  | none => parseErrorData j

/-- The request built by `RedditClient::login` (src/lib.rs:189-201) before it
is sent: the form body is built first (`unwrap` of username and password, so
a missing credential panics before any request exists), then `self.post(url)`
attaches the user-agent, then `basic_auth` overwrites the Authorization
header with the client id/secret, then the grant form is attached.
`PanicOr.panics` means no request was ever constructed, hence no network
call was attempted. -/
def loginRequest (cfg : Config) : PanicOr RequestBuilder :=
  match cfg.username, cfg.password with
  | some u, some p =>
    match RedditClient.post cfg (build_url "api/v1/access_token") with
    | PanicOr.panics => PanicOr.panics
    | PanicOr.ok b =>
      PanicOr.ok
        { b with
          auth := AuthHeader.basic cfg.client_id cfg.client_secret
          form := [("grant_type", "password"), ("username", u), ("password", p)] }
  | _, _ => PanicOr.panics

/-- `RedditClient::login` (src/lib.rs:189-217), with the network factored
out: given the HTTP response to the login request, a status of exactly 200
leads to the untagged body parse (success stores the token in the config,
the error variant yields `RouxError::Auth`, an unparseable body yields a
deserialization error), and any other status yields `RouxError::Status`
carrying the response. -/
def RedditClient.login (cfg : Config) (response : HttpResponse) :
    PanicOr (Except RouxError Config) :=
  match loginRequest cfg with
  | PanicOr.panics => PanicOr.panics
  | PanicOr.ok _ =>
    if response.status == 200 then
      match parseAuthResponse response.body with
      | some (AuthResponse.authData t) =>
        PanicOr.ok (Except.ok { cfg with access_token := some t })
      | some (AuthResponse.errorData e) =>
        PanicOr.ok (Except.error (RouxError.auth e))
      | none => PanicOr.ok (Except.error RouxError.parse)
    else
      PanicOr.ok (Except.error (RouxError.status response))

/-- A parsed hierarchical URL with a host, as in the `url` crate: scheme,
host, path segments, and query pairs.  Only URLs that can be a base (all the
URLs this crate constructs) are modelled, so `path_segments_mut` never fails. -/
structure Url where
  scheme : String
  host : String
  pathSegments : List String
  query : List (String × String)
deriving DecidableEq

/-- The path string of a URL: segments joined by `/` with a leading `/`. -/
def Url.path (u : Url) : String :=
  "/" ++ String.intercalate "/" u.pathSegments

/-- Serialization of the query pairs (`?k=v&k=v`, empty when there are none). -/
def Url.queryString (u : Url) : String :=
  match u.query with
  | [] => ""
  | qs => "?" ++ String.intercalate "&" (qs.map fun kv => kv.fst ++ "=" ++ kv.snd)

/-- The textual form of a URL. -/
def Url.render (u : Url) : String :=
  u.scheme ++ "://" ++ u.host ++ u.path ++ u.queryString

/-- `PathSegmentsMut::pop_if_empty` from the `url` crate: remove the last
path segment when it is empty. -/
def popIfEmpty (segs : List String) : List String :=
  if segs.getLast? = some "" then segs.dropLast else segs

/-- `JoinSegmentsExt::join_segments` (src/util/url.rs:17-31): clone the URL,
take its path segments, `pop_if_empty`, then push each given segment in turn. -/
def Url.join_segments (u : Url) (segments : List String) : Url :=
  { u with pathSegments := segments.foldl (fun acc s => acc ++ [s]) (popIfEmpty u.pathSegments) }

/-- Split a character list at every slash. -/
def splitSlashChars : List Char → List (List Char)
  | [] => [[]]
  | c :: cs =>
    match splitSlashChars cs with
    | r :: rs => if c = '/' then [] :: r :: rs else (c :: r) :: rs
    | [] => [[]]

/-- Split a string into its slash-separated segments. -/
def splitOnSlash (s : String) : List String :=
  (splitSlashChars s.data).map (fun cs => cs.asString)

/-- `Url::join` from the `url` crate, restricted to the references this crate
uses: a non-empty relative path (no scheme, authority, leading slash, query
or fragment).  Per RFC 3986 §5.3 the reference's segments replace the last
segment of the base path, and the base query is dropped (the reference
carries no query of its own). -/
def Url.joinRelative (u : Url) (ref : String) : Url :=
  { u with pathSegments := u.pathSegments.dropLast ++ splitOnSlash ref, query := [] }

/-- Append one query pair, as `query_pairs_mut().append_pair(k, v)`. -/
def Url.appendPair (u : Url) (k v : String) : Url :=
  { u with query := u.query ++ [(k, v)] }

/-- Append a query pair only when the value is present. -/
def Url.appendOptPair (u : Url) (k : String) (v : Option String) : Url :=
  match v with
  | some s => u.appendPair k s
  | none => u

/-- The base URL of a `Subreddit` (src/models/subreddit/mod.rs:127-131 and
143-147): `Url::parse_with_params("https://www.reddit.com/r/{name}/",
&[("raw_json", "1")])`, whose path `/r/{name}/` has a trailing empty segment. -/
def subredditUrl (name : String) : Url :=
  { scheme := "https"
    host := "www.reddit.com"
    pathSegments := ["r", name, ""]
    query := [("raw_json", "1")] }

/-- Time window of a listing request.  Modelled from the spec: the
`TimePeriod` enumeration lives in the `util` module, which is not in the
sources; the spec fixes the closed set of lowercase tokens. -/
inductive TimePeriod where
  | hour : TimePeriod
  | day : TimePeriod
  | week : TimePeriod
  | month : TimePeriod
  | year : TimePeriod
  | all : TimePeriod
deriving DecidableEq

/-- The serialized token of a time period. -/
def TimePeriod.token : TimePeriod → String
  | TimePeriod.hour => "hour"
  | TimePeriod.day => "day"
  | TimePeriod.week => "week"
  | TimePeriod.month => "month"
  | TimePeriod.year => "year"
  | TimePeriod.all => "all"

/-- Modelled from the spec: `util::FeedOption` (the ListingCursor) is defined
in the `util` module, which is not in the sources.  Fields per spec §3:
optional after/before cursors, count, limit, and time period. -/
structure FeedOption where
  after : Option String
  before : Option String
  count : Option Nat
  limit : Option Nat
  period : Option TimePeriod
deriving DecidableEq

/-- Modelled from the spec: `FeedOption::build_url` appends to the query only
the parameters that are `Some`, in field-declaration order limit, after,
before, count, time window (spec §4.3). -/
def FeedOption.build_url (o : FeedOption) (u : Url) : Url :=
  let u := u.appendOptPair "limit" (o.limit.map toString)
  let u := u.appendOptPair "after" o.after
  let u := u.appendOptPair "before" o.before
  let u := u.appendOptPair "count" (o.count.map toString)
  u.appendOptPair "t" (o.period.map TimePeriod.token)

/-- The URL built by `Subreddit::get_feed` (src/models/subreddit/mod.rs:184-196):
`self.url.join("{ty}.json")` (which drops the base query), then a `limit`
query pair, then the cursor parameters when options are given. -/
def Subreddit.feedUrl (name ty : String) (limit : Nat) (options : Option FeedOption) : Url :=
  let url := (subredditUrl name).joinRelative (ty ++ ".json")
  let url := url.appendPair "limit" (toString limit)
  match options with
  | some o => o.build_url url
  | none => url

/-- The GET request dispatched by `Subreddit::get_feed`
(src/models/subreddit/mod.rs:184-204): the feed URL handed to
`RedditClient::get`. -/
def Subreddit.get_feed (cfg : Config) (name ty : String) (limit : Nat)
    (options : Option FeedOption) : PanicOr RequestBuilder :=
  RedditClient.get cfg (Url.render (Subreddit.feedUrl name ty limit options))

/-- Whether the pattern occurs at the head of the character list. -/
def charsStartWith : List Char → List Char → Bool
  | [], _ => true
  | _ :: _, [] => false
  | a :: as, b :: bs => a == b && charsStartWith as bs

/-- Whether the pattern occurs anywhere in the character list. -/
def charsContain (pat : List Char) : List Char → Bool
  | [] => charsStartWith pat []
  | b :: bs => charsStartWith pat (b :: bs) || charsContain pat bs

/-- Rust `str::contains(pat)`: substring search. -/
def strContains (s pat : String) : Bool :=
  charsContain pat.data s.data

/-- The URL built by `Subreddit::get_comment_feed`
(src/models/subreddit/mod.rs:213-223): `self.url.join("{ty}.json")`, then
optional `depth` and `limit` query pairs. -/
def Subreddit.commentFeedUrl (name ty : String) (depth limit : Option Nat) : Url :=
  let url := (subredditUrl name).joinRelative (ty ++ ".json")
  let url := url.appendOptPair "depth" (depth.map toString)
  url.appendOptPair "limit" (limit.map toString)

/-- The forum-scoped branch of `Subreddit::get_comment_feed`
(src/models/subreddit/mod.rs:237): `resp.json::<Comments>()` — decode the
body directly; a failed decode is a deserialization error. -/
def normalizeForum {α : Type} (decode : Json → Option α) (body : Json) :
    PanicOr (Except RouxError α) :=
  match decode body with
  | some c => PanicOr.ok (Except.ok c)
  | none => PanicOr.ok (Except.error RouxError.parse)

/-- serde deserialization of `Vec<T>`: the body must be a JSON array and
every element must decode. -/
def decodeVec {α : Type} (decode : Json → Option α) : Json → Option (List α)
  | Json.arr xs => xs.mapM decode
  | _ => none

/-- The post-scoped branch of `Subreddit::get_comment_feed`
(src/models/subreddit/mod.rs:233-235): `resp.json::<Vec<Comments>>()`, then
`comments.pop().unwrap()` — take the last element, panicking when the vector
is empty. -/
def normalizePost {α : Type} (decode : Json → Option α) (body : Json) :
    PanicOr (Except RouxError α) :=
  match decodeVec decode body with
  | none => PanicOr.ok (Except.error RouxError.parse)
  | some cs =>
    match cs.getLast? with
    | none => PanicOr.panics
    | some c => PanicOr.ok (Except.ok c)

/-- `Subreddit::get_comment_feed` (src/models/subreddit/mod.rs:206-239) with
the network factored out: build the URL, build the GET request (panicking on
an invalid user-agent), classify 4xx/5xx statuses as errors
(`error_for_status`), and normalize the body according to whether the URL
path contains `"comments/"` (`is_post_comments`). -/
def Subreddit.get_comment_feed {α : Type} (decode : Json → Option α) (cfg : Config)
    (name ty : String) (depth limit : Option Nat) (resp : HttpResponse) :
    PanicOr (Except RouxError α) :=
  let url := Subreddit.commentFeedUrl name ty depth limit
  match RedditClient.get cfg (Url.render url) with
  | PanicOr.panics => PanicOr.panics
  | PanicOr.ok _ =>
    if 400 ≤ resp.status then
      PanicOr.ok (Except.error (RouxError.status resp))
    else if strContains (Url.path url) "comments/" then
      normalizePost decode resp.body
    else
      normalizeForum decode resp.body

mutual
/-- Modelled from the spec: the canonical `Comments` (CommentTree) shape —
the `models` module defining it is not in the sources.  Spec §3: a listing of
top-level comment nodes with an `after` cursor for its own page. -/
inductive Comments where
  | mk (after : Option String) (children : List CommentNode) : Comments

/-- Modelled from the spec: one comment node, optionally owning nested
replies (a recursive listing of the same node type). -/
inductive CommentNode where
  | mk (id : Option String) (replies : Option Comments) : CommentNode
end

mutual
/-- Fuel-bounded decoder for the spec-modelled `Comments` wire shape: an
object with an optional string `after` field and a `children` array. -/
def decodeCommentsF : Nat → Json → Option Comments
  | 0, _ => none
  | Nat.succ fuel, Json.obj fields =>
    let after := match lookupField fields "after" with
      | some (Json.str s) => some s
      | _ => none
    match lookupField fields "children" with
    | some (Json.arr xs) =>
      match decodeNodesF fuel xs with
      | some ns => some (Comments.mk after ns)
      | none => none
    | _ => none
  | Nat.succ _, _ => none

/-- Fuel-bounded decoder for a list of comment nodes. -/
def decodeNodesF : Nat → List Json → Option (List CommentNode)
  | _, [] => some []
  | 0, _ :: _ => none
  | Nat.succ fuel, x :: xs =>
    match decodeNodeF fuel x, decodeNodesF fuel xs with
    | some n, some ns => some (n :: ns)
    | _, _ => none

/-- Fuel-bounded decoder for one comment node: an object with an optional
string `id` field and an optional `replies` listing. -/
def decodeNodeF : Nat → Json → Option CommentNode
  | 0, _ => none
  | Nat.succ fuel, Json.obj fields =>
    let id := match lookupField fields "id" with
      | some (Json.str s) => some s
      | _ => none
    match lookupField fields "replies" with
    | some r =>
      match decodeCommentsF fuel r with
      | some c => some (CommentNode.mk id (some c))
      | none => none
    | none => some (CommentNode.mk id none)
  | Nat.succ _, _ => none
end

/-- The configuration of `util::defaults::default_client`
(src/util/defaults.rs:16-21): `Config::new("roux/rust", "", "")`. -/
def default_client_cfg : Config :=
  Config.new (strBytes "roux/rust") "" ""

/-- A fully-populated example configuration with valid user-agent bytes. -/
def cfgAlice : Config :=
  { user_agent := strBytes "macos:roux:v1.4.0"
    client_id := "cid"
    client_secret := "csec"
    username := some "alice"
    password := some "hunter2"
    access_token := none }

/-- An example configuration whose username was never set. -/
def cfgNoUser : Config :=
  { cfgAlice with username := none }

/-- An example configuration whose user-agent contains a newline (byte 10),
which is not a valid HTTP header value byte. -/
def cfgBadAgent : Config :=
  Config.new (strBytes "bad\nagent") "cid" "csec"

/-- Folding `push` over segments appends them to the accumulated path. -/
theorem foldl_push_eq_append (init segments : List String) :
    segments.foldl (fun acc s => acc ++ [s]) init = init ++ segments := by
  induction segments generalizing init with
  | nil => simp
  | cons s rest ih => simp [List.foldl, ih]

/-- C9: `join_segments` keeps the base URL's scheme, host and query, and its
path is the base path — minus one trailing empty segment, if any
(`pop_if_empty`) — with the given segments appended.  The source operates on
a clone of the base (`self.clone()`), so the base URL value is untouched;
in this embedding `Url.join_segments` is a pure function of the base. -/
theorem join_segments_frame (u : Url) (segments : List String) :
    (u.join_segments segments).scheme = u.scheme ∧
    (u.join_segments segments).host = u.host ∧
    (u.join_segments segments).query = u.query ∧
    (u.join_segments segments).pathSegments = popIfEmpty u.pathSegments ++ segments := by
  refine ⟨rfl, rfl, rfl, ?_⟩
  simp [Url.join_segments, foldl_push_eq_append]

/-- C7: with a valid user-agent, both dispatcher entry points build a
request carrying the user-agent header, with a bearer credential exactly
when the session token is `Some` and no Authorization header when it is
`None`. -/
theorem dispatcher_headers (cfg : Config) (url : String)
    (hua : validHeaderValue cfg.user_agent = true) :
    ∃ bg bp : RequestBuilder,
      RedditClient.get cfg url = PanicOr.ok bg ∧
      RedditClient.post cfg url = PanicOr.ok bp ∧
      bg.userAgent = cfg.user_agent ∧
      bp.userAgent = cfg.user_agent ∧
      (∀ t, cfg.access_token = some t →
        bg.auth = AuthHeader.bearer t ∧ bp.auth = AuthHeader.bearer t) ∧
      (cfg.access_token = none →
        bg.auth = AuthHeader.none ∧ bp.auth = AuthHeader.none) := by
  refine ⟨{ method := Method.get, url := url, userAgent := cfg.user_agent,
            auth := authFor cfg.access_token, form := [] },
          { method := Method.post, url := url, userAgent := cfg.user_agent,
            auth := authFor cfg.access_token, form := [] },
          ?_, ?_, rfl, rfl, ?_, ?_⟩
  · simp [RedditClient.get, hua]
  · simp [RedditClient.post, hua]
  · intro t ht
    simp [authFor, ht]
  · intro ht
    simp [authFor, ht]

/-- Witness for C7 at a concrete authenticated configuration. -/
theorem dispatcher_headers_witness :
    validHeaderValue ({ cfgAlice with access_token := some "tok" } : Config).user_agent = true ∧
    (∃ bg bp : RequestBuilder,
      RedditClient.get { cfgAlice with access_token := some "tok" } "https://oauth.reddit.com/x" = PanicOr.ok bg ∧
      RedditClient.post { cfgAlice with access_token := some "tok" } "https://oauth.reddit.com/x" = PanicOr.ok bp ∧
      bg.userAgent = ({ cfgAlice with access_token := some "tok" } : Config).user_agent ∧
      bp.userAgent = ({ cfgAlice with access_token := some "tok" } : Config).user_agent ∧
      (∀ t, ({ cfgAlice with access_token := some "tok" } : Config).access_token = some t →
        bg.auth = AuthHeader.bearer t ∧ bp.auth = AuthHeader.bearer t) ∧
      (({ cfgAlice with access_token := some "tok" } : Config).access_token = none →
        bg.auth = AuthHeader.none ∧ bp.auth = AuthHeader.none)) :=
  ⟨by decide, dispatcher_headers { cfgAlice with access_token := some "tok" }
    "https://oauth.reddit.com/x" (by decide)⟩

/-- C10: request construction panics exactly on invalid user-agent bytes —
if some byte of the user-agent is not a valid header value byte, both
`RedditClient::get` and `RedditClient::post` panic (the `unwrap` of
`HeaderValue::from_str`); if every byte is valid, neither panics. -/
theorem header_value_panic_iff_invalid (cfg : Config) (url : String) :
    ((∃ b ∈ cfg.user_agent, validHeaderByte b = false) →
      RedditClient.get cfg url = PanicOr.panics ∧
      RedditClient.post cfg url = PanicOr.panics) ∧
    ((∀ b ∈ cfg.user_agent, validHeaderByte b = true) →
      RedditClient.get cfg url ≠ PanicOr.panics ∧
      RedditClient.post cfg url ≠ PanicOr.panics) := by
  have hval : validHeaderValue cfg.user_agent = true ↔
      ∀ b ∈ cfg.user_agent, validHeaderByte b = true := by
    simp [validHeaderValue, List.all_eq_true]
  constructor
  · rintro ⟨b, hb, hbad⟩
    have hfalse : validHeaderValue cfg.user_agent = false := by
      cases hv : validHeaderValue cfg.user_agent
      · rfl
      · exact absurd (hval.mp hv b hb) (by simp [hbad])
    simp [RedditClient.get, RedditClient.post, hfalse]
  · intro hall
    have htrue : validHeaderValue cfg.user_agent = true := hval.mpr hall
    simp [RedditClient.get, RedditClient.post, htrue]

/-- Witness for C10: a newline byte makes `get` panic; an all-valid
user-agent does not panic. -/
theorem header_value_panic_iff_invalid_witness :
    (∃ b ∈ cfgBadAgent.user_agent, validHeaderByte b = false) ∧
    RedditClient.get cfgBadAgent "https://x" = PanicOr.panics ∧
    (∀ b ∈ default_client_cfg.user_agent, validHeaderByte b = true) ∧
    RedditClient.get default_client_cfg "https://x" ≠ PanicOr.panics :=
  ⟨by decide,
   ((header_value_panic_iff_invalid cfgBadAgent "https://x").1 (by decide)).1,
   by decide,
   ((header_value_panic_iff_invalid default_client_cfg "https://x").2 (by decide)).1⟩

/-- C1 counterexample: with the username absent, `RedditClient::login` does
not return a `MissingCredentials` error — it panics (the `unwrap` in the
form construction), so the claimed error value is never produced. -/
theorem login_missing_username_no_error_cex :
    RedditClient.login cfgNoUser ⟨200, Json.obj [("access_token", Json.str "abc")]⟩ ≠
      PanicOr.ok (Except.error RouxError.missingCredentials) := by
  intro h
  rw [show RedditClient.login cfgNoUser ⟨200, Json.obj [("access_token", Json.str "abc")]⟩ =
        PanicOr.panics from rfl] at h
  exact PanicOr.noConfusion h

/-- C1 (amended): for every credential set missing the username or the
password, `RedditClient::login` panics while building the grant form —
before any request is constructed (`loginRequest` also panics), hence before
any network call — and returns no error value at all, for every possible
response. -/
theorem login_missing_credentials_panics (cfg : Config)
    (h : cfg.username = none ∨ cfg.password = none) :
    loginRequest cfg = PanicOr.panics ∧
    ∀ resp : HttpResponse, RedditClient.login cfg resp = PanicOr.panics := by
  have hreq : loginRequest cfg = PanicOr.panics := by
    rcases h with h | h
    · simp [loginRequest, h]
    · cases hu : cfg.username <;> simp [loginRequest, h, hu]
  refine ⟨hreq, fun resp => ?_⟩
  simp [RedditClient.login, hreq]

/-- Witness for C1 (amended) at a configuration with no username. -/
theorem login_missing_credentials_panics_witness :
    (cfgNoUser.username = none ∨ cfgNoUser.password = none) ∧
    (loginRequest cfgNoUser = PanicOr.panics ∧
     ∀ resp : HttpResponse, RedditClient.login cfgNoUser resp = PanicOr.panics) :=
  ⟨Or.inl rfl, login_missing_credentials_panics cfgNoUser (Or.inl rfl)⟩

/-- C3: for a login response with HTTP status 200 whose body is the
error-shaped union variant (a JSON object with a string `error` field and no
`access_token` field), `RedditClient::login` returns an `Auth` error carrying
the upstream error string — the failure is decided from the parsed body, not
from the status code. -/
theorem login_error_body_status200_auth (cfg : Config) (resp : HttpResponse)
    (fields : List (String × Json)) (e : String)
    (hreq : loginRequest cfg ≠ PanicOr.panics)
    (hstatus : resp.status = 200)
    (hbody : resp.body = Json.obj fields)
    (hnotok : lookupField fields "access_token" = none)
    (herr : lookupField fields "error" = some (Json.str e)) :
    RedditClient.login cfg resp = PanicOr.ok (Except.error (RouxError.auth e)) := by
  rcases hb : loginRequest cfg with _ | b
  · exact absurd hb hreq
  · simp [RedditClient.login, hb, hstatus, parseAuthResponse, parseAuthData,
      parseErrorData, hbody, hnotok, herr]

/-- Witness for C3: status 200 with body `{"error": "invalid_grant"}` yields
`Auth("invalid_grant")`. -/
theorem login_error_body_status200_auth_witness :
    loginRequest cfgAlice ≠ PanicOr.panics ∧
    RedditClient.login cfgAlice ⟨200, Json.obj [("error", Json.str "invalid_grant")]⟩ =
      PanicOr.ok (Except.error (RouxError.auth "invalid_grant")) :=
  ⟨by decide,
   login_error_body_status200_auth cfgAlice
     ⟨200, Json.obj [("error", Json.str "invalid_grant")]⟩
     [("error", Json.str "invalid_grant")] "invalid_grant"
     (by decide) rfl rfl rfl rfl⟩

/-- C6 counterexample: a success-shaped body `{"access_token": "abc"}` with
HTTP status 201 (a 2xx code) does not store the token — the code compares
the status to 200 exactly, so the result is a `Status` error, not success. -/
theorem login_status201_success_body_cex :
    RedditClient.login cfgAlice ⟨201, Json.obj [("access_token", Json.str "abc")]⟩ ≠
      PanicOr.ok (Except.ok { cfgAlice with access_token := some "abc" }) := by
  intro h
  rw [show RedditClient.login cfgAlice ⟨201, Json.obj [("access_token", Json.str "abc")]⟩ =
        PanicOr.ok (Except.error (RouxError.status
          ⟨201, Json.obj [("access_token", Json.str "abc")]⟩)) from rfl] at h
  simp at h

/-- C6 (amended): for a login response whose body is the success shape
`{"access_token": t}`, `RedditClient::login` extracts and stores `t` exactly
when the HTTP status is 200; any other status (including other 2xx codes)
yields a `Status` error carrying the response. -/
theorem login_token_stored_iff_status200 (cfg : Config) (resp : HttpResponse)
    (fields : List (String × Json)) (t : String)
    (hreq : loginRequest cfg ≠ PanicOr.panics)
    (hbody : resp.body = Json.obj fields)
    (htok : lookupField fields "access_token" = some (Json.str t)) :
    (resp.status = 200 →
      RedditClient.login cfg resp =
        PanicOr.ok (Except.ok { cfg with access_token := some t })) ∧
    (resp.status ≠ 200 →
      RedditClient.login cfg resp =
        PanicOr.ok (Except.error (RouxError.status resp))) := by
  rcases hb : loginRequest cfg with _ | b
  · exact absurd hb hreq
  constructor
  · intro hstatus
    simp [RedditClient.login, hb, hstatus, parseAuthResponse, parseAuthData,
      hbody, htok]
  · intro hstatus
    simp [RedditClient.login, hb, hstatus, parseAuthResponse, parseAuthData,
      hbody, htok]

/-- Witness for C6 (amended): status 200 stores token `"abc"`; status 201
with the same body yields a `Status` error. -/
theorem login_token_stored_iff_status200_witness :
    loginRequest cfgAlice ≠ PanicOr.panics ∧
    RedditClient.login cfgAlice ⟨200, Json.obj [("access_token", Json.str "abc")]⟩ =
      PanicOr.ok (Except.ok { cfgAlice with access_token := some "abc" }) ∧
    RedditClient.login cfgAlice ⟨201, Json.obj [("access_token", Json.str "abc")]⟩ =
      PanicOr.ok (Except.error (RouxError.status
        ⟨201, Json.obj [("access_token", Json.str "abc")]⟩)) :=
  ⟨by decide,
   (login_token_stored_iff_status200 cfgAlice
     ⟨200, Json.obj [("access_token", Json.str "abc")]⟩
     [("access_token", Json.str "abc")] "abc" (by decide) rfl rfl).1 rfl,
   (login_token_stored_iff_status200 cfgAlice
     ⟨201, Json.obj [("access_token", Json.str "abc")]⟩
     [("access_token", Json.str "abc")] "abc" (by decide) rfl rfl).2 (by decide)⟩

/-- C8 counterexample: the login request's target URL is
`https://www.reddit.com/api/v1/access_token/.json` — `build_url` appends a
`/.json` suffix — so it is not exactly `{auth_host}/api/v1/access_token`. -/
theorem login_url_json_suffix_cex :
    loginRequest cfgAlice = PanicOr.ok
      { method := Method.post
        url := "https://www.reddit.com/api/v1/access_token/.json"
        userAgent := strBytes "macos:roux:v1.4.0"
        auth := AuthHeader.basic "cid" "csec"
        form := [("grant_type", "password"), ("username", "alice"),
                 ("password", "hunter2")] } ∧
    ("https://www.reddit.com/api/v1/access_token/.json" : String) ≠
      "https://www.reddit.com/api/v1/access_token" :=
  ⟨by decide, by decide⟩

/-- C8 (amended): the password-grant login request is a POST to
`build_url "api/v1/access_token"`, which is
`https://www.reddit.com/api/v1/access_token/.json` (host plus path plus the
crate's fixed `/.json` suffix), with HTTP basic auth from the client
id/secret and a form body of grant_type=password, username and password. -/
theorem login_request_shape (cfg : Config) (u p : String)
    (hu : cfg.username = some u) (hp : cfg.password = some p)
    (hua : validHeaderValue cfg.user_agent = true) :
    loginRequest cfg = PanicOr.ok
      { method := Method.post
        url := build_url "api/v1/access_token"
        userAgent := cfg.user_agent
        auth := AuthHeader.basic cfg.client_id cfg.client_secret
        form := [("grant_type", "password"), ("username", u), ("password", p)] } ∧
    build_url "api/v1/access_token" =
      "https://www.reddit.com/api/v1/access_token/.json" := by
  constructor
  · simp [loginRequest, hu, hp, RedditClient.post, hua]
  · rfl

/-- Witness for C8 (amended) at a concrete configuration. -/
theorem login_request_shape_witness :
    cfgAlice.username = some "alice" ∧
    cfgAlice.password = some "hunter2" ∧
    validHeaderValue cfgAlice.user_agent = true ∧
    (loginRequest cfgAlice = PanicOr.ok
      { method := Method.post
        url := build_url "api/v1/access_token"
        userAgent := cfgAlice.user_agent
        auth := AuthHeader.basic cfgAlice.client_id cfgAlice.client_secret
        form := [("grant_type", "password"), ("username", "alice"),
                 ("password", "hunter2")] } ∧
     build_url "api/v1/access_token" =
       "https://www.reddit.com/api/v1/access_token/.json") :=
  ⟨rfl, rfl, by decide, login_request_shape cfgAlice "alice" "hunter2" rfl rfl (by decide)⟩

/-- C4: evaluation of the code at the failing input.  The subreddit base URL
does carry `raw_json=1`, but `Subreddit::get_feed` builds its request URL
with `Url::join`, which replaces the last path segment and drops the base
query (RFC 3986 §5.3), so the dispatched GET request for
`Subreddit::new("astolfo").hot(25, None)` carries only `limit=25` and no
`raw_json` parameter — contradicting the claim that every GET carries
`raw_json=1`. -/
theorem feed_request_lacks_raw_json :
    (subredditUrl "astolfo").query = [("raw_json", "1")] ∧
    Subreddit.feedUrl "astolfo" "hot" 25 none =
      { scheme := "https"
        host := "www.reddit.com"
        pathSegments := ["r", "astolfo", "hot.json"]
        query := [("limit", "25")] } ∧
    ((Subreddit.feedUrl "astolfo" "hot" 25 none).query.all
      fun kv => !(kv.fst == "raw_json")) = true ∧
    Subreddit.get_feed default_client_cfg "astolfo" "hot" 25 none = PanicOr.ok
      { method := Method.get
        url := "https://www.reddit.com/r/astolfo/hot.json?limit=25"
        userAgent := strBytes "roux/rust"
        auth := AuthHeader.none
        form := [] } := by
  refine ⟨rfl, by decide, by decide, by decide⟩

/-- `normalizePost` on an empty JSON array: `Vec<Comments>` deserializes to
an empty vector, and `pop().unwrap()` panics. -/
theorem normalizePost_empty_array {α : Type} (decode : Json → Option α) :
    normalizePost decode (Json.arr []) = PanicOr.panics := rfl

/-- C2 counterexample: a post-scoped comment request whose response body is
the empty JSON array makes `get_comment_feed` panic — it does not return the
claimed `ParseError::UnexpectedShape` error value. -/
theorem post_comments_empty_array_cex :
    Subreddit.get_comment_feed (decodeCommentsF 9) default_client_cfg
      "astolfo" "comments/abc" none none ⟨200, Json.arr []⟩ = PanicOr.panics ∧
    Subreddit.get_comment_feed (decodeCommentsF 9) default_client_cfg
      "astolfo" "comments/abc" none none ⟨200, Json.arr []⟩ ≠
      PanicOr.ok (Except.error RouxError.parse) := by
  refine ⟨rfl, ?_⟩
  intro h
  rw [show Subreddit.get_comment_feed (decodeCommentsF 9) default_client_cfg
        "astolfo" "comments/abc" none none ⟨200, Json.arr []⟩ =
        PanicOr.panics from rfl] at h
  exact PanicOr.noConfusion h

/-- C2 (amended): for every post-scoped comment request (one whose URL path
contains `"comments/"`) with a valid user-agent and a non-error status whose
response body is the empty JSON array, the post-scoped branch of
`get_comment_feed` panics (`Vec::pop().unwrap()` on the empty vector); no
`ParseError` value is returned. -/
theorem post_comments_empty_array_panics {α : Type} (decode : Json → Option α)
    (cfg : Config) (name ty : String) (depth limit : Option Nat)
    (hua : validHeaderValue cfg.user_agent = true)
    (hpost : strContains (Url.path (Subreddit.commentFeedUrl name ty depth limit))
      "comments/" = true) :
    Subreddit.get_comment_feed decode cfg name ty depth limit ⟨200, Json.arr []⟩ =
      PanicOr.panics := by
  simp [Subreddit.get_comment_feed, RedditClient.get, hua, hpost,
    normalizePost_empty_array]

/-- Witness for C2 (amended) at the concrete post-scoped request
`comments/abc`. -/
theorem post_comments_empty_array_panics_witness :
    validHeaderValue cfgAlice.user_agent = true ∧
    strContains (Url.path (Subreddit.commentFeedUrl "astolfo" "comments/abc"
      none (some 25))) "comments/" = true ∧
    Subreddit.get_comment_feed (decodeCommentsF 9) cfgAlice "astolfo"
      "comments/abc" none (some 25) ⟨200, Json.arr []⟩ = PanicOr.panics :=
  ⟨by decide, by decide,
   post_comments_empty_array_panics (decodeCommentsF 9) cfgAlice "astolfo"
     "comments/abc" none (some 25) (by decide) (by decide)⟩

/-- C5: for every comment listing body `L` that deserializes to `c`, a
forum-scoped request (URL path without `"comments/"`) answered with the
single object `L` and a post-scoped request (URL path with `"comments/"`)
answered with a two-element array whose second element is the identical `L`
(and whose first element also deserializes, as the post's own listing does)
normalize to equal `Comments` values — both to `c`, since the post-scoped
branch takes the last element of the array. -/
theorem comment_shapes_normalize_equal {α : Type} (decode : Json → Option α)
    (cfg : Config) (nameF tyF nameP tyP : String)
    (depthF limitF depthP limitP : Option Nat) (L X : Json) (c x : α)
    (hua : validHeaderValue cfg.user_agent = true)
    (hforum : strContains (Url.path (Subreddit.commentFeedUrl nameF tyF depthF limitF))
      "comments/" = false)
    (hpost : strContains (Url.path (Subreddit.commentFeedUrl nameP tyP depthP limitP))
      "comments/" = true)
    (hL : decode L = some c) (hX : decode X = some x) :
    Subreddit.get_comment_feed decode cfg nameF tyF depthF limitF ⟨200, L⟩ =
      PanicOr.ok (Except.ok c) ∧
    Subreddit.get_comment_feed decode cfg nameP tyP depthP limitP
      ⟨200, Json.arr [X, L]⟩ = PanicOr.ok (Except.ok c) := by
  constructor
  · simp [Subreddit.get_comment_feed, RedditClient.get, hua, hforum,
      normalizeForum, hL]
  · simp [Subreddit.get_comment_feed, RedditClient.get, hua, hpost,
      normalizePost, decodeVec, List.mapM.loop, hL, hX]

/-- A concrete comment-listing body: one page with an `after` cursor and one
child node. -/
def listingBody : Json :=
  Json.obj [("after", Json.str "t1_x"),
            ("children", Json.arr [Json.obj [("id", Json.str "c1")]])]

/-- A concrete post-data listing (the first, discarded element of the
post-scoped wire array). -/
def postDataBody : Json :=
  Json.obj [("children", Json.arr [])]

/-- The decoded value of `listingBody`. -/
def listingValue : Comments :=
  Comments.mk (some "t1_x") [CommentNode.mk (some "c1") none]

/-- The decoded value of `postDataBody`. -/
def postDataValue : Comments :=
  Comments.mk none []

/-- Witness for C5 at concrete forum-scoped (`comments`) and post-scoped
(`comments/abc`) requests with the same listing object. -/
theorem comment_shapes_normalize_equal_witness :
    validHeaderValue cfgAlice.user_agent = true ∧
    strContains (Url.path (Subreddit.commentFeedUrl "astolfo" "comments"
      none (some 25))) "comments/" = false ∧
    strContains (Url.path (Subreddit.commentFeedUrl "astolfo" "comments/abc"
      none (some 25))) "comments/" = true ∧
    decodeCommentsF 9 listingBody = some listingValue ∧
    decodeCommentsF 9 postDataBody = some postDataValue ∧
    (Subreddit.get_comment_feed (decodeCommentsF 9) cfgAlice "astolfo"
      "comments" none (some 25) ⟨200, listingBody⟩ =
        PanicOr.ok (Except.ok listingValue) ∧
     Subreddit.get_comment_feed (decodeCommentsF 9) cfgAlice "astolfo"
      "comments/abc" none (some 25) ⟨200, Json.arr [postDataBody, listingBody]⟩ =
        PanicOr.ok (Except.ok listingValue)) :=
  ⟨by decide, by decide, by decide, rfl, rfl,
   comment_shapes_normalize_equal (decodeCommentsF 9) cfgAlice
     "astolfo" "comments" "astolfo" "comments/abc" none (some 25) none (some 25)
     listingBody postDataBody listingValue postDataValue
     (by decide) (by decide) (by decide) rfl rfl⟩

end Roux
